import Mathlib

/-!
Verification of the financial reconciliation pipeline (bank transaction
preprocessing, match-suggestion normalization, cash matching / journal
generation, and the validators) as a shallow embedding in Lean 4.

Monetary amounts and scores are modelled as rationals (`ℚ`); pandas
DataFrames are modelled as lists of typed records, with `Option` fields
standing for nullable / NaN cells.  File-system effects (existence,
readability) are modelled as boolean parameters; functions that can fail
return `Option`.
-/

/-! Constants from `config/constants.py`. -/

def AMOUNT_SMALL_MAX : ℚ := 100000

def AMOUNT_MEDIUM_MAX : ℚ := 500000

def MATCH_SCORE_MIN : ℚ := 0

def MATCH_SCORE_MAX : ℚ := 1

def AMOUNT_TOLERANCE : ℚ := 1

def CONFIDENCE_THRESHOLD_DEFAULT : ℚ := 8/10

def YEAR_MIN : ℕ := 2020

def YEAR_MAX : ℕ := 2030

def MONTH_MIN : ℕ := 1

def MONTH_MAX : ℕ := 12

def OUTLIER_STDDEV : ℚ := 3

/-! Data model: one row of the canonical match-suggestion table
(`transaction_id, project_id, client_name, amount, matched_amount,
match_score`), as consumed by `apply_cash_matching.py`. -/

structure MatchSuggestion where
  transaction_id : String
  project_id : String
  client_name : String
  amount : ℚ
  matched_amount : ℚ
  match_score : ℚ
deriving DecidableEq, Repr

/-! Data model: one journal entry row, as produced by
`CashMatchingProcessor.create_journal_entries` /
`add_manual_review_entries`.  The `date` and `created_at` timestamp
strings are threaded in as parameters (`datetime.now()` in the source);
the exact decimal rendering of the score inside `description` is elided
(it is presentation only and never inspected by any validator). -/

structure JournalEntry where
  date : String
  transaction_id : String
  project_id : String
  client_name : String
  debit_account : String
  credit_account : String
  amount : ℚ
  description : String
  match_score : ℚ
  entry_type : String
  created_at : String
deriving DecidableEq, Repr

namespace CashMatchingProcessor

/-- Validation of the match-suggestion table
(`CashMatchingProcessor.validate_match_suggestions`): every
`match_score` lies in `[MATCH_SCORE_MIN, MATCH_SCORE_MAX]` and every
`amount` is positive.  (The required-column check is structural and holds
by typing in this embedding.) -/
def validate_match_suggestions (match_df : List MatchSuggestion) : Bool :=
  (match_df.all fun m =>
    decide (MATCH_SCORE_MIN ≤ m.match_score) && decide (m.match_score ≤ MATCH_SCORE_MAX)) &&
  (match_df.all fun m => decide (0 < m.amount))

/-- Selection of the high-confidence subset
(`match_df[match_df['match_score'] >= threshold]`). -/
def filter_high_confidence_matches (match_df : List MatchSuggestion) (threshold : ℚ) :
    List MatchSuggestion :=
  match_df.filter fun m => decide (threshold ≤ m.match_score)

/-- Selection of the low-confidence subset in `process`
(`match_df[match_df['match_score'] < confidence_threshold]`). -/
def low_confidence_matches (match_df : List MatchSuggestion) (threshold : ℚ) :
    List MatchSuggestion :=
  match_df.filter fun m => decide (m.match_score < threshold)

/-- The cash-receipt leg (debit 現金 / credit 売掛金, amount =
`matched_amount`) generated for one high-confidence suggestion. -/
def cash_receipt_entry (today now : String) (m : MatchSuggestion) : JournalEntry :=
  { date := today
    transaction_id := m.transaction_id
    project_id := m.project_id
    client_name := m.client_name
    debit_account := "現金"
    credit_account := "売掛金"
    amount := m.matched_amount
    description := "入金消込 - " ++ m.client_name ++ " (" ++ m.project_id ++ ")"
    match_score := m.match_score
    entry_type := "cash_receipt"
    created_at := now }

/-- The revenue-recognition leg (debit 売掛金 / credit 売上, amount =
`matched_amount`) generated for one high-confidence suggestion. -/
def revenue_recognition_entry (today now : String) (m : MatchSuggestion) : JournalEntry :=
  { date := today
    transaction_id := m.transaction_id
    project_id := m.project_id
    client_name := m.client_name
    debit_account := "売掛金"
    credit_account := "売上"
    amount := m.matched_amount
    description := "売上計上 - " ++ m.client_name ++ " (" ++ m.project_id ++ ")"
    match_score := m.match_score
    entry_type := "revenue_recognition"
    created_at := now }

/-- Journal creation for the high-confidence matches
(`CashMatchingProcessor.create_journal_entries`): two entries per
suggestion, in order. -/
def create_journal_entries (today now : String) (high : List MatchSuggestion) :
    List JournalEntry :=
  high.flatMap fun m => [cash_receipt_entry today now m, revenue_recognition_entry today now m]

/-- Exact rendering of a score used in the manual-review description
(modelling the numeric interpolation of the source f-string). -/
def score_text (q : ℚ) : String := Int.repr q.num ++ "/" ++ Nat.repr q.den

/-- The manual-review placeholder entry (debit and credit both 未決算,
amount = `amount`, not `matched_amount`) for one low-confidence
suggestion. -/
def manual_review_entry (today now : String) (m : MatchSuggestion) : JournalEntry :=
  { date := today
    transaction_id := m.transaction_id
    project_id := m.project_id
    client_name := m.client_name
    debit_account := "未決算"
    credit_account := "未決算"
    amount := m.amount
    description := "手動確認要 - " ++ m.client_name ++ " (" ++ m.project_id ++ ") - スコア: " ++
      score_text m.match_score
    match_score := m.match_score
    entry_type := "manual_review"
    created_at := now }

/-- Appending of the manual-review entries for the low-confidence
matches (`CashMatchingProcessor.add_manual_review_entries`; the source
concatenates only when the list is non-empty, which gives the same
journal). -/
def add_manual_review_entries (today now : String) (journal : List JournalEntry)
    (low : List MatchSuggestion) : List JournalEntry :=
  if low.isEmpty then journal
  else journal ++ low.map (manual_review_entry today now)

/-- The journal produced by `CashMatchingProcessor.process` once the
input data has loaded and validated: the high-confidence pair entries
followed by the low-confidence manual-review entries. -/
def process_journal (match_df : List MatchSuggestion) (confidence_threshold : ℚ)
    (today now : String) : List JournalEntry :=
  add_manual_review_entries today now
    (create_journal_entries today now
      (filter_high_confidence_matches match_df confidence_threshold))
    (low_confidence_matches match_df confidence_threshold)

/-- The fallible entry point `CashMatchingProcessor.process`: fails
(raises, writing no journal) when `validate_match_suggestions` fails. -/
def process (match_df : List MatchSuggestion) (confidence_threshold : ℚ)
    (today now : String) : Option (List JournalEntry) :=
  if validate_match_suggestions match_df then
    some (process_journal match_df confidence_threshold today now)
  else none

end CashMatchingProcessor

/-! List helper lemmas shared by several claim proofs. -/

theorem list_flatMap_filter {α β : Type} (f : α → List β) (p : β → Bool) (l : List α) :
    (l.flatMap f).filter p = l.flatMap fun a => (f a).filter p := by
  induction l with
  | nil => rfl
  | cons a t ih => simp [List.flatMap_cons, List.filter_append, ih]

theorem list_map_filter {α β : Type} (f : α → β) (p : β → Bool) (l : List α) :
    (l.map f).filter p = (l.filter fun a => p (f a)).map f := by
  induction l with
  | nil => rfl
  | cons a t ih =>
    by_cases h : p (f a) = true
    · simp [List.filter_cons, h, ih]
    · simp only [Bool.not_eq_true] at h
      simp [List.filter_cons, h, ih]

theorem list_flatMap_ite_filter {α β : Type} (f : α → List β) (p : α → Bool) (l : List α) :
    (l.flatMap fun a => if p a then f a else []) = (l.filter p).flatMap f := by
  induction l with
  | nil => rfl
  | cons a t ih =>
    by_cases h : p a = true
    · simp [List.filter_cons, h, ih]
    · simp only [Bool.not_eq_true] at h
      simp [List.filter_cons, h, ih]

theorem list_filter_key_eq_of_nodup {α : Type} {κ : Type} [DecidableEq κ] (key : α → κ)
    {l : List α} (hn : (l.map key).Nodup) {m : α} (hm : m ∈ l) :
    (l.filter fun x => decide (key x = key m)) = [m] := by
  induction l with
  | nil => cases hm
  | cons a t ih =>
    simp only [List.map_cons, List.nodup_cons, List.mem_map] at hn
    rcases List.mem_cons.mp hm with rfl | hmt
    · have ht : (t.filter fun x => decide (key x = key m)) = [] := by
        apply List.filter_eq_nil_iff.mpr
        intro x hx
        simp only [decide_eq_true_eq]
        intro hkey
        exact hn.1 ⟨x, hx, hkey⟩
      simp [List.filter_cons, ht]
    · have hne : ¬ key a = key m := by
        intro h
        exact hn.1 ⟨m, hmt, h.symm⟩
      simp [List.filter_cons, hne, ih hn.2 hmt]

/-- C2: for every match-suggestion set whose scores lie in [0,1] and
every threshold τ in [0,1], the high-confidence subset (match_score ≥ τ)
and the low-confidence subset (match_score < τ) are disjoint and their
concatenation is a permutation of the original set — no row is
duplicated and no row is omitted. -/
theorem c2_confidence_partition (ms : List MatchSuggestion) (τ : ℚ)
    (hscore : ∀ m ∈ ms, 0 ≤ m.match_score ∧ m.match_score ≤ 1)
    (hτ : 0 ≤ τ ∧ τ ≤ 1) :
    (CashMatchingProcessor.filter_high_confidence_matches ms τ ++
       CashMatchingProcessor.low_confidence_matches ms τ).Perm ms ∧
    (∀ m, ¬ (m ∈ CashMatchingProcessor.filter_high_confidence_matches ms τ ∧
             m ∈ CashMatchingProcessor.low_confidence_matches ms τ)) ∧
    ms.length = (CashMatchingProcessor.filter_high_confidence_matches ms τ).length +
      (CashMatchingProcessor.low_confidence_matches ms τ).length := by
  have hlow : CashMatchingProcessor.low_confidence_matches ms τ =
      ms.filter fun m => ! decide (τ ≤ m.match_score) := by
    apply List.filter_congr
    intro m _
    by_cases h : τ ≤ m.match_score
    · simp [h, not_lt.mpr h]
    · simp [h, lt_of_not_le h]
  have hperm : (CashMatchingProcessor.filter_high_confidence_matches ms τ ++
      CashMatchingProcessor.low_confidence_matches ms τ).Perm ms := by
    rw [hlow]
    exact List.filter_append_perm _ ms
  refine ⟨hperm, ?_, ?_⟩
  · intro m ⟨hhi, hlo⟩
    have h1 := (List.mem_filter.mp hhi).2
    have h2 := (List.mem_filter.mp hlo).2
    simp only [decide_eq_true_eq] at h1 h2
    exact absurd h1 (not_le.mpr h2)
  · have := hperm.length_eq
    simpa [List.length_append] using this.symm

/-- Concrete two-row suggestion set: scores 0.9 and 0.6 for distinct
projects, as in the spec scenario. -/
def exampleSuggestions : List MatchSuggestion :=
  [{ transaction_id := "TXN_P1_PRJ_0001", project_id := "PRJ_0001",
     client_name := "A社", amount := 100000, matched_amount := 100000,
     match_score := mkRat 9 10 },
   { transaction_id := "TXN_P2_PRJ_0002", project_id := "PRJ_0002",
     client_name := "B社", amount := 200000, matched_amount := 200000,
     match_score := mkRat 6 10 }]

/-- Witness for C2 at the concrete two-row suggestion set and τ = 0.7. -/
theorem c2_confidence_partition_witness :
    ((∀ m ∈ exampleSuggestions, 0 ≤ m.match_score ∧ m.match_score ≤ 1) ∧
      (0 ≤ mkRat 7 10 ∧ mkRat 7 10 ≤ 1)) ∧
    (exampleSuggestions.length =
      (CashMatchingProcessor.filter_high_confidence_matches exampleSuggestions
        (mkRat 7 10)).length +
      (CashMatchingProcessor.low_confidence_matches exampleSuggestions
        (mkRat 7 10)).length) :=
  ⟨⟨by decide, by decide⟩,
    (c2_confidence_partition exampleSuggestions (mkRat 7 10) (by decide) (by decide)).2.2⟩

theorem string_beq_decide (a b : String) : (a == b) = decide (a = b) := by
  by_cases h : a = b <;> simp [h]

namespace CashMatchingProcessor

theorem process_journal_eq (ms : List MatchSuggestion) (τ : ℚ) (today now : String) :
    process_journal ms τ today now =
      create_journal_entries today now (filter_high_confidence_matches ms τ) ++
        (low_confidence_matches ms τ).map (manual_review_entry today now) := by
  unfold process_journal add_manual_review_entries
  by_cases h : (low_confidence_matches ms τ).isEmpty
  · rw [if_pos h]
    rw [List.isEmpty_iff] at h
    simp [h]
  · rw [if_neg h]

theorem pair_filter_eq (today now : String) (m mtarget : MatchSuggestion) :
    ([cash_receipt_entry today now m, revenue_recognition_entry today now m].filter
      fun e => e.transaction_id == mtarget.transaction_id) =
      if decide (m.transaction_id = mtarget.transaction_id) then
        [cash_receipt_entry today now m, revenue_recognition_entry today now m]
      else [] := by
  by_cases h : m.transaction_id = mtarget.transaction_id <;>
    simp [cash_receipt_entry, revenue_recognition_entry, List.filter, string_beq_decide, h]

theorem journal_filter_txn {ms : List MatchSuggestion} {τ : ℚ} {m : MatchSuggestion}
    (today now : String) (hnodup : (ms.map MatchSuggestion.transaction_id).Nodup)
    (hm : m ∈ ms) (hhigh : τ ≤ m.match_score) :
    ((process_journal ms τ today now).filter
      fun e => e.transaction_id == m.transaction_id) =
      [cash_receipt_entry today now m, revenue_recognition_entry today now m] := by
  rw [process_journal_eq, List.filter_append]
  have hkey : (ms.filter fun x => decide (x.transaction_id = m.transaction_id)) = [m] :=
    list_filter_key_eq_of_nodup MatchSuggestion.transaction_id hnodup hm
  have hcreate : ((create_journal_entries today now
      (filter_high_confidence_matches ms τ)).filter
        fun e => e.transaction_id == m.transaction_id) =
      [cash_receipt_entry today now m, revenue_recognition_entry today now m] := by
    unfold create_journal_entries
    rw [list_flatMap_filter]
    have hfun : (fun m2 => ([cash_receipt_entry today now m2,
          revenue_recognition_entry today now m2].filter
            fun e => e.transaction_id == m.transaction_id)) =
        fun m2 => if decide (m2.transaction_id = m.transaction_id) then
          [cash_receipt_entry today now m2, revenue_recognition_entry today now m2]
        else [] :=
      funext fun m2 => pair_filter_eq today now m2 m
    rw [hfun, list_flatMap_ite_filter]
    have hswap : ((filter_high_confidence_matches ms τ).filter
        fun x => decide (x.transaction_id = m.transaction_id)) =
        (ms.filter fun x => decide (x.transaction_id = m.transaction_id)).filter
          fun x => decide (τ ≤ x.match_score) := by
      unfold filter_high_confidence_matches
      rw [List.filter_filter, List.filter_filter]
      apply List.filter_congr
      intro x _
      rw [Bool.and_comm]
    rw [hswap, hkey]
    simp [List.filter, hhigh]
  have hmanual : (((low_confidence_matches ms τ).map
      (manual_review_entry today now)).filter
        fun e => e.transaction_id == m.transaction_id) = [] := by
    rw [list_map_filter]
    have hswap : ((low_confidence_matches ms τ).filter
        fun x => (manual_review_entry today now x).transaction_id == m.transaction_id) =
        (ms.filter fun x => decide (x.transaction_id = m.transaction_id)).filter
          fun x => decide (x.match_score < τ) := by
      unfold low_confidence_matches
      rw [List.filter_filter, List.filter_filter]
      apply List.filter_congr
      intro x _
      rw [Bool.and_comm]
      simp [manual_review_entry, string_beq_decide]
    rw [hswap, hkey]
    simp [List.filter, not_lt.mpr hhigh]
  rw [hcreate, hmanual, List.append_nil]

theorem mem_journal_cash {ms : List MatchSuggestion} {τ : ℚ} {today now : String}
    {e : JournalEntry} (he : e ∈ process_journal ms τ today now)
    (hty : e.entry_type = "cash_receipt") :
    ∃ m2 ∈ ms, τ ≤ m2.match_score ∧ e = cash_receipt_entry today now m2 := by
  rw [process_journal_eq] at he
  rcases List.mem_append.mp he with hc | hman
  · unfold create_journal_entries at hc
    rcases List.mem_flatMap.mp hc with ⟨m2, hm2, hin⟩
    rcases List.mem_cons.mp hin with rfl | hin2
    · have hm2ms := List.mem_filter.mp hm2
      refine ⟨m2, hm2ms.1, ?_, rfl⟩
      have := hm2ms.2
      simpa using this
    · rcases List.mem_cons.mp hin2 with rfl | hnil
      · simp [revenue_recognition_entry] at hty
      · cases hnil
  · rcases List.mem_map.mp hman with ⟨m2, _, rfl⟩
    simp [manual_review_entry] at hty

end CashMatchingProcessor

/-- C1: for every validated match-suggestion set (scores in [0,1],
amounts positive — `validate_match_suggestions`) with pairwise distinct
transaction ids, every suggestion at or above the confidence threshold
yields exactly two journal entries carrying its transaction id — the
cash-receipt leg and the revenue-recognition leg, both with amount equal
to `matched_amount` — and every cash_receipt entry in the journal has
exactly one revenue_recognition sibling with the same transaction id and
equal amount (hence within `AMOUNT_TOLERANCE` = 1 currency unit). -/
theorem c1_balanced_pairs (ms : List MatchSuggestion) (τ : ℚ) (today now : String)
    (hval : CashMatchingProcessor.validate_match_suggestions ms = true)
    (hnodup : (ms.map MatchSuggestion.transaction_id).Nodup) :
    (∀ m ∈ ms, τ ≤ m.match_score →
      ((CashMatchingProcessor.process_journal ms τ today now).filter
          fun e => e.transaction_id == m.transaction_id) =
        [CashMatchingProcessor.cash_receipt_entry today now m,
         CashMatchingProcessor.revenue_recognition_entry today now m] ∧
      (CashMatchingProcessor.cash_receipt_entry today now m).entry_type = "cash_receipt" ∧
      (CashMatchingProcessor.revenue_recognition_entry today now m).entry_type =
        "revenue_recognition" ∧
      (CashMatchingProcessor.cash_receipt_entry today now m).amount = m.matched_amount ∧
      (CashMatchingProcessor.revenue_recognition_entry today now m).amount =
        m.matched_amount) ∧
    (∀ e ∈ CashMatchingProcessor.process_journal ms τ today now,
      e.entry_type = "cash_receipt" →
      ∃ e2, ((CashMatchingProcessor.process_journal ms τ today now).filter
          fun x => x.transaction_id == e.transaction_id &&
            x.entry_type == "revenue_recognition") = [e2] ∧
        e2.amount = e.amount ∧ |e2.amount - e.amount| ≤ AMOUNT_TOLERANCE) := by
  clear hval
  constructor
  · intro m hm hhigh
    exact ⟨CashMatchingProcessor.journal_filter_txn today now hnodup hm hhigh,
      rfl, rfl, rfl, rfl⟩
  · intro e he hty
    rcases CashMatchingProcessor.mem_journal_cash he hty with ⟨m2, hm2, hhigh, rfl⟩
    refine ⟨CashMatchingProcessor.revenue_recognition_entry today now m2, ?_, rfl, ?_⟩
    · have hfilter := CashMatchingProcessor.journal_filter_txn today now hnodup hm2 hhigh
      have hsplit : (fun (x : JournalEntry) => x.transaction_id ==
          (CashMatchingProcessor.cash_receipt_entry today now m2).transaction_id &&
            x.entry_type == "revenue_recognition") =
          fun x => (x.entry_type == "revenue_recognition") &&
            (x.transaction_id == m2.transaction_id) := by
        funext x
        rw [Bool.and_comm]
        rfl
      rw [hsplit, ← List.filter_filter, hfilter]
      simp [CashMatchingProcessor.cash_receipt_entry,
        CashMatchingProcessor.revenue_recognition_entry, List.filter]
    · simp [CashMatchingProcessor.cash_receipt_entry,
        CashMatchingProcessor.revenue_recognition_entry, AMOUNT_TOLERANCE]

/-- Witness for C1 at the concrete two-row suggestion set and τ = 0.7. -/
theorem c1_balanced_pairs_witness :
    (CashMatchingProcessor.validate_match_suggestions exampleSuggestions = true ∧
      (exampleSuggestions.map MatchSuggestion.transaction_id).Nodup) ∧
    (∀ e ∈ CashMatchingProcessor.process_journal exampleSuggestions (mkRat 7 10)
        "2024-06-30" "2024-06-30 12:00:00",
      e.entry_type = "cash_receipt" →
      ∃ e2, ((CashMatchingProcessor.process_journal exampleSuggestions (mkRat 7 10)
          "2024-06-30" "2024-06-30 12:00:00").filter
          fun x => x.transaction_id == e.transaction_id &&
            x.entry_type == "revenue_recognition") = [e2] ∧
        e2.amount = e.amount ∧ |e2.amount - e.amount| ≤ AMOUNT_TOLERANCE) :=
  ⟨⟨by decide, by decide⟩,
    (c1_balanced_pairs exampleSuggestions (mkRat 7 10) "2024-06-30" "2024-06-30 12:00:00"
      (by decide) (by decide)).2⟩

/-! Bank Transaction Preprocessor (`prep_bank_txn.py`).  A raw bank CSV
row: `Option` fields model null / unparseable cells (`pd.to_numeric
errors='coerce'`), and the optional `transaction_id` / `project_id`
model cells of columns that may be absent from the raw export. -/

structure Date where
  year : ℕ
  month : ℕ
  day : ℕ
deriving DecidableEq, Repr

structure RawBankRow where
  Transaction_Date : Option Date
  Client_Name : Option String
  Amount : Option ℚ
  Transaction_Type : Option String
  transaction_id : Option String
  project_id : Option String
deriving DecidableEq, Repr

/-- Data model: one cleaned bank row after
`BankTransactionProcessor.add_processing_metadata`. -/
structure ProcessedBankRow where
  Transaction_Date : Date
  Client_Name : String
  Amount : ℚ
  Transaction_Type : String
  processed_at : String
  transaction_id : String
  year : ℕ
  month : ℕ
  amount_category : String
deriving DecidableEq, Repr

/-- Data model: one row of the receivables ledger
(`data/Updated_Accounts_Receivable.csv`). -/
structure ARRow where
  Project_ID : String
  Client : String
  AR_Amount : ℚ
deriving DecidableEq, Repr

/-- Data model: one output row of the preprocessor after the
receivables merge; `none` in `AR_Amount` / `amount_diff_pct` models the
NaN cells a left merge produces for clients absent from the ledger. -/
structure MatchedBankRow where
  row : ProcessedBankRow
  Project_ID : Option String
  AR_Amount : Option ℚ
  amount_diff_pct : Option ℚ
  matching_status : String
  matching_confidence : ℚ
deriving DecidableEq, Repr

/-- Whitespace stripping (`str.strip()` in pandas), modelled over the
character list of the string. -/
def strip (s : String) : String :=
  ⟨List.reverse (List.dropWhile Char.isWhitespace
    (List.reverse (List.dropWhile Char.isWhitespace s.data)))⟩

namespace BankTransactionProcessor

/-- Cleaning (`clean_transaction_data`): strip the string columns, drop
rows with null date / client / amount, keep only 入金 rows with positive
amount.  Rows keep their original positional index (`row.name` in
pandas), which the dropped rows do not renumber. -/
def clean_transaction_data (df : List RawBankRow) : List (ℕ × RawBankRow) :=
  let stripped := df.enum.map fun p =>
    (p.1, { p.2 with
              Transaction_Type := p.2.Transaction_Type.map strip,
              Client_Name := p.2.Client_Name.map strip })
  ((stripped.filter fun p =>
      p.2.Transaction_Date.isSome && p.2.Client_Name.isSome && p.2.Amount.isSome).filter
    fun p => p.2.Transaction_Type == some "入金").filter
      fun p => match p.2.Amount with
        | some a => decide (0 < a)
        | none => false

/-- Amount categorisation (`_categorize_amount`): small below
`AMOUNT_SMALL_MAX`, medium below `AMOUNT_MEDIUM_MAX`, else large. -/
def categorize_amount (amount : ℚ) : String :=
  if amount < AMOUNT_SMALL_MAX then "small"
  else if amount < AMOUNT_MEDIUM_MAX then "medium"
  else "large"

/-- Transaction-id synthesis (`make_txn_id` in
`add_processing_metadata`): raw id if present else the row position,
then project id if present else the client name. -/
def make_txn_id (idx : ℕ) (r : RawBankRow) : String :=
  let txn_part := match r.transaction_id with
    | some t => t
    | none => Nat.repr idx
  let proj_part := match r.project_id with
    | some p => p
    | none => r.Client_Name.getD ""
  "TXN_" ++ txn_part ++ "_" ++ proj_part

/-- Metadata propagation (`add_processing_metadata`): stamp
`processed_at`, synthesize `transaction_id`, derive year / month and the
amount category.  The `getD` defaults are unreachable for rows that
survived `clean_transaction_data`. -/
def add_processing_metadata (now : String) (l : List (ℕ × RawBankRow)) :
    List ProcessedBankRow :=
  l.map fun p =>
    { Transaction_Date := p.2.Transaction_Date.getD ⟨0, 0, 0⟩
      Client_Name := p.2.Client_Name.getD ""
      Amount := p.2.Amount.getD 0
      Transaction_Type := p.2.Transaction_Type.getD ""
      processed_at := now
      transaction_id := make_txn_id p.1 p.2
      year := (p.2.Transaction_Date.getD ⟨0, 0, 0⟩).year
      month := (p.2.Transaction_Date.getD ⟨0, 0, 0⟩).month
      amount_category := categorize_amount (p.2.Amount.getD 0) }

/-- The pandas left merge on `Client_Name = Client` inside
`match_with_accounts_receivable`: one output row per ledger hit, or a
single row with null AR columns when the client has no ledger entry. -/
def left_merge_ar (df : List ProcessedBankRow) (ar : List ARRow) :
    List (ProcessedBankRow × Option ARRow) :=
  df.flatMap fun b =>
    let hits := ar.filter fun a => a.Client == b.Client_Name
    if hits.isEmpty then [(b, none)] else hits.map fun a => (b, some a)

/-- The `amount_diff_pct` column: `abs((Amount - AR_Amount) /
AR_Amount)`, NaN (`none`) when the merge produced no ledger row. -/
def amount_diff_pct (b : ProcessedBankRow) (oa : Option ARRow) : Option ℚ :=
  oa.map fun a => |(b.Amount - a.AR_Amount) / a.AR_Amount|

/-- Output-row construction shared by the matched / unmatched halves of
`match_with_accounts_receivable`. -/
def merge_out (p : ProcessedBankRow × Option ARRow) (status : String) (conf : ℚ) :
    MatchedBankRow :=
  { row := p.1
    Project_ID := p.2.map ARRow.Project_ID
    AR_Amount := p.2.map ARRow.AR_Amount
    amount_diff_pct := amount_diff_pct p.1 p.2
    matching_status := status
    matching_confidence := conf }

/-- Receivables matching (`match_with_accounts_receivable`), ledger
file present: left-merge on client name, keep the rows with
`amount_diff_pct <= 0.1` as matched (confidence `1 - diff`) followed by
the rows with `amount_diff_pct > 0.1` as unmatched (confidence 0);
a NaN diff (client absent from the ledger) fails both comparisons.
Ledger file absent: tag every row `no_ar_data` with confidence 0. -/
def match_with_accounts_receivable (ar_file_exists : Bool) (ar : List ARRow)
    (df : List ProcessedBankRow) : List MatchedBankRow :=
  if ar_file_exists then
    let merged := left_merge_ar df ar
    let matched := (merged.filter fun p => match amount_diff_pct p.1 p.2 with
        | some d => decide (d ≤ mkRat 1 10)
        | none => false).map fun p =>
      merge_out p "matched" (1 - (amount_diff_pct p.1 p.2).getD 0)
    let unmatched := (merged.filter fun p => match amount_diff_pct p.1 p.2 with
        | some d => decide (mkRat 1 10 < d)
        | none => false).map fun p => merge_out p "unmatched" 0
    matched ++ unmatched
  else
    df.map fun b =>
      { row := b, Project_ID := none, AR_Amount := none, amount_diff_pct := none,
        matching_status := "no_ar_data", matching_confidence := 0 }

/-- The `except` branch of `match_with_accounts_receivable`: on a
matching-process failure every row is tagged `matching_error` with
confidence 0. -/
def match_with_accounts_receivable_error (df : List ProcessedBankRow) :
    List MatchedBankRow :=
  df.map fun b =>
    { row := b, Project_ID := none, AR_Amount := none, amount_diff_pct := none,
      matching_status := "matching_error", matching_confidence := 0 }

/-- The preprocessing pipeline `BankTransactionProcessor.process` after
a successful load and structure validation: clean, add metadata, merge
with the receivables ledger. -/
def process (df : List RawBankRow) (ar_file_exists : Bool) (ar : List ARRow)
    (now : String) : List MatchedBankRow :=
  match_with_accounts_receivable ar_file_exists ar
    (add_processing_metadata now (clean_transaction_data df))

end BankTransactionProcessor

namespace BankTransactionProcessor

theorem mem_left_merge {df : List ProcessedBankRow} {ar : List ARRow}
    {p : ProcessedBankRow × Option ARRow} (hp : p ∈ left_merge_ar df ar) :
    p.1 ∈ df ∧ (p.2 = none ∨ ∃ a ∈ ar, p.2 = some a ∧ a.Client = p.1.Client_Name) := by
  unfold left_merge_ar at hp
  rcases List.mem_flatMap.mp hp with ⟨b, hb, hin⟩
  by_cases hhits : (ar.filter fun a => a.Client == b.Client_Name).isEmpty
  · rw [if_pos hhits] at hin
    rcases List.mem_cons.mp hin with rfl | hfalse
    · exact ⟨hb, Or.inl rfl⟩
    · cases hfalse
  · rw [if_neg hhits] at hin
    rcases List.mem_map.mp hin with ⟨a, hahits, rfl⟩
    have ha := List.mem_filter.mp hahits
    refine ⟨hb, Or.inr ⟨a, ha.1, rfl, ?_⟩⟩
    have := ha.2
    rw [string_beq_decide] at this
    exact of_decide_eq_true this

theorem pair_mem_left_merge {df : List ProcessedBankRow} {ar : List ARRow}
    {b : ProcessedBankRow} {a : ARRow} (hb : b ∈ df) (ha : a ∈ ar)
    (hclient : a.Client = b.Client_Name) : (b, some a) ∈ left_merge_ar df ar := by
  unfold left_merge_ar
  apply List.mem_flatMap.mpr
  refine ⟨b, hb, ?_⟩
  have hmem : a ∈ ar.filter fun x => x.Client == b.Client_Name := by
    apply List.mem_filter.mpr
    exact ⟨ha, by rw [string_beq_decide]; exact decide_eq_true hclient⟩
  have hne : ¬ (ar.filter fun x => x.Client == b.Client_Name).isEmpty := by
    intro h
    rw [List.isEmpty_iff] at h
    rw [h] at hmem
    cases hmem
  rw [if_neg hne]
  exact List.mem_map.mpr ⟨a, hmem, rfl⟩

theorem mem_match_ar {df : List ProcessedBankRow} {ar : List ARRow} {r : MatchedBankRow}
    (hr : r ∈ match_with_accounts_receivable true ar df) :
    (∃ p ∈ left_merge_ar df ar, ∃ d, amount_diff_pct p.1 p.2 = some d ∧
        d ≤ mkRat 1 10 ∧ r = merge_out p "matched" (1 - d)) ∨
    (∃ p ∈ left_merge_ar df ar, ∃ d, amount_diff_pct p.1 p.2 = some d ∧
        mkRat 1 10 < d ∧ r = merge_out p "unmatched" 0) := by
  unfold match_with_accounts_receivable at hr
  rw [if_pos rfl] at hr
  rcases List.mem_append.mp hr with hm | hu
  · left
    rcases List.mem_map.mp hm with ⟨p, hpf, rfl⟩
    have hp := List.mem_filter.mp hpf
    rcases hd : amount_diff_pct p.1 p.2 with _ | d
    · rw [hd] at hp
      simp at hp
    · refine ⟨p, hp.1, d, hd, ?_, ?_⟩
      · have := hp.2
        rw [hd] at this
        exact of_decide_eq_true this
      · rfl
  · right
    rcases List.mem_map.mp hu with ⟨p, hpf, rfl⟩
    have hp := List.mem_filter.mp hpf
    rcases hd : amount_diff_pct p.1 p.2 with _ | d
    · rw [hd] at hp
      simp at hp
    · refine ⟨p, hp.1, d, hd, ?_, rfl⟩
      have := hp.2
      rw [hd] at this
      exact of_decide_eq_true this

end BankTransactionProcessor

/-- C3, corrected: with the receivables-ledger file present, a cleaned
bank row whose client has no ledger entry is silently dropped from the
merged output (its NaN `amount_diff_pct` fails both the matched and the
unmatched filter) — it does not receive `no_ar_data`.  The `no_ar_data`
status is applied to the whole batch exactly when the ledger file is
missing, and the `matching_error` status with confidence 0 is applied to
the whole batch by the exception branch of the matching step. -/
theorem c3_no_ar_row_handling :
    (∀ (df : List ProcessedBankRow) (ar : List ARRow) (c : String),
      (∀ a ∈ ar, a.Client ≠ c) →
      ∀ r ∈ BankTransactionProcessor.match_with_accounts_receivable true ar df,
        r.row.Client_Name ≠ c) ∧
    (∀ (df : List ProcessedBankRow) (ar : List ARRow),
      (∀ r ∈ BankTransactionProcessor.match_with_accounts_receivable false ar df,
        r.matching_status = "no_ar_data" ∧ r.matching_confidence = 0) ∧
      ∀ b ∈ df, ∃ r ∈ BankTransactionProcessor.match_with_accounts_receivable false ar df,
        r.row = b) ∧
    (∀ df : List ProcessedBankRow,
      ∀ r ∈ BankTransactionProcessor.match_with_accounts_receivable_error df,
        r.matching_status = "matching_error" ∧ r.matching_confidence = 0) := by
  refine ⟨?_, ?_, ?_⟩
  · intro df ar c hno r hr hc
    rcases BankTransactionProcessor.mem_match_ar hr with
      ⟨p, hp, d, hd, _, rfl⟩ | ⟨p, hp, d, hd, _, rfl⟩ <;>
    · rcases (BankTransactionProcessor.mem_left_merge hp).2 with hnone | ⟨a, ha, heq, hcl⟩
      · rw [hnone] at hd
        simp [BankTransactionProcessor.amount_diff_pct] at hd
      · exact hno a ha (hcl.trans hc)
  · intro df ar
    constructor
    · intro r hr
      unfold BankTransactionProcessor.match_with_accounts_receivable at hr
      simp only [Bool.false_eq_true, if_false] at hr
      rcases List.mem_map.mp hr with ⟨b, _, rfl⟩
      exact ⟨rfl, rfl⟩
    · intro b hb
      unfold BankTransactionProcessor.match_with_accounts_receivable
      simp only [Bool.false_eq_true, if_false]
      exact ⟨_, List.mem_map.mpr ⟨b, hb, rfl⟩, rfl⟩
  · intro df r hr
    rcases List.mem_map.mp hr with ⟨b, _, rfl⟩
    exact ⟨rfl, rfl⟩

/-- Witness for C3 (amended form) at a one-row batch and a disjoint
one-row ledger. -/
theorem c3_no_ar_row_handling_witness :
    (∀ a ∈ [({ Project_ID := "PRJ_0001", Client := "Y社", AR_Amount := 100000 } : ARRow)],
      a.Client ≠ "X社") ∧
    (∀ r ∈ BankTransactionProcessor.match_with_accounts_receivable true
        [({ Project_ID := "PRJ_0001", Client := "Y社", AR_Amount := 100000 } : ARRow)]
        [({ Transaction_Date := ⟨2024, 6, 15⟩, Client_Name := "X社", Amount := 100000,
            Transaction_Type := "入金", processed_at := "2024-07-01 00:00:00",
            transaction_id := "TXN_0_X社", year := 2024, month := 6,
            amount_category := "medium" } : ProcessedBankRow)],
      r.row.Client_Name ≠ "X社") :=
  ⟨by decide, c3_no_ar_row_handling.1 _ _ "X社" (by decide)⟩

/-- Counterexample for C3 as stated: the ledger file exists but client
X社 has no ledger entry; the cleaned batch has exactly one row (client
X社), yet the preprocessor output is empty — the row neither appears
with `no_ar_data` nor with any other status; it is silently dropped. -/
theorem c3_counterexample :
    ((BankTransactionProcessor.add_processing_metadata "2024-07-01 00:00:00"
        (BankTransactionProcessor.clean_transaction_data
          [{ Transaction_Date := some ⟨2024, 6, 15⟩, Client_Name := some "X社",
             Amount := some 100000, Transaction_Type := some "入金",
             transaction_id := none, project_id := none }])).map
        ProcessedBankRow.Client_Name) = ["X社"] ∧
    (∀ a ∈ [({ Project_ID := "PRJ_0001", Client := "Y社", AR_Amount := 100000 } : ARRow)],
      a.Client ≠ "X社") ∧
    BankTransactionProcessor.process
      [{ Transaction_Date := some ⟨2024, 6, 15⟩, Client_Name := some "X社",
         Amount := some 100000, Transaction_Type := some "入金",
         transaction_id := none, project_id := none }]
      true [{ Project_ID := "PRJ_0001", Client := "Y社", AR_Amount := 100000 }]
      "2024-07-01 00:00:00" = [] := by
  refine ⟨?_, by decide, ?_⟩ <;> decide

/-- Shorthand for the relative difference
`abs((Amount - AR_Amount) / AR_Amount)` computed by
`match_with_accounts_receivable` for one bank row / ledger row pair. -/
def rel_diff (b : ProcessedBankRow) (a : ARRow) : ℚ :=
  |(b.Amount - a.AR_Amount) / a.AR_Amount|

/-- C4: a cleaned bank row merged with a ledger entry for its client is
accepted as `matched` if and only if the relative amount difference is
at most 0.1, in which case the confidence is `1 - rel_diff`; when the
relative difference exceeds 0.1 the pair is emitted as `unmatched` with
confidence 0. -/
theorem c4_ar_tolerance_rule (df : List ProcessedBankRow) (ar : List ARRow)
    (b : ProcessedBankRow) (a : ARRow) (hb : b ∈ df) (ha : a ∈ ar)
    (hclient : a.Client = b.Client_Name) (hpos : 0 < a.AR_Amount) :
    (rel_diff b a ≤ mkRat 1 10 →
      BankTransactionProcessor.merge_out (b, some a) "matched" (1 - rel_diff b a) ∈
        BankTransactionProcessor.match_with_accounts_receivable true ar df) ∧
    (mkRat 1 10 < rel_diff b a →
      BankTransactionProcessor.merge_out (b, some a) "unmatched" 0 ∈
        BankTransactionProcessor.match_with_accounts_receivable true ar df) ∧
    (∀ r ∈ BankTransactionProcessor.match_with_accounts_receivable true ar df,
      r.row = b → r.AR_Amount = some a.AR_Amount →
      (r.matching_status = "matched" ↔ rel_diff b a ≤ mkRat 1 10) ∧
      (r.matching_status = "matched" → r.matching_confidence = 1 - rel_diff b a) ∧
      (r.matching_status = "unmatched" →
        mkRat 1 10 < rel_diff b a ∧ r.matching_confidence = 0)) := by
  clear hpos
  have hpair := BankTransactionProcessor.pair_mem_left_merge hb ha hclient
  refine ⟨?_, ?_, ?_⟩
  · intro hle
    unfold BankTransactionProcessor.match_with_accounts_receivable
    rw [if_pos rfl]
    apply List.mem_append.mpr
    left
    apply List.mem_map.mpr
    refine ⟨(b, some a), List.mem_filter.mpr ⟨hpair, ?_⟩, rfl⟩
    exact decide_eq_true hle
  · intro hlt
    unfold BankTransactionProcessor.match_with_accounts_receivable
    rw [if_pos rfl]
    apply List.mem_append.mpr
    right
    apply List.mem_map.mpr
    refine ⟨(b, some a), List.mem_filter.mpr ⟨hpair, ?_⟩, rfl⟩
    exact decide_eq_true hlt
  · intro r hr hrow har
    rcases BankTransactionProcessor.mem_match_ar hr with
      ⟨p, _, d, hd, hle, rfl⟩ | ⟨p, _, d, hd, hlt, rfl⟩
    · rcases p with ⟨b2, _ | a2⟩
      · cases har
      · have hb2 : b2 = b := hrow
        have ha2 : a2.AR_Amount = a.AR_Amount := Option.some.inj har
        have h1 : BankTransactionProcessor.amount_diff_pct (b2, some a2).1 (b2, some a2).2 =
            some (rel_diff b2 a2) := rfl
        rw [h1] at hd
        have hdval : d = rel_diff b a := by
          rw [← Option.some.inj hd]
          unfold rel_diff
          rw [hb2, ha2]
        subst hdval
        exact ⟨⟨fun _ => hle, fun _ => rfl⟩, fun _ => rfl,
          fun hstat => by simp [BankTransactionProcessor.merge_out] at hstat⟩
    · rcases p with ⟨b2, _ | a2⟩
      · cases har
      · have hb2 : b2 = b := hrow
        have ha2 : a2.AR_Amount = a.AR_Amount := Option.some.inj har
        have h1 : BankTransactionProcessor.amount_diff_pct (b2, some a2).1 (b2, some a2).2 =
            some (rel_diff b2 a2) := rfl
        rw [h1] at hd
        have hdval : d = rel_diff b a := by
          rw [← Option.some.inj hd]
          unfold rel_diff
          rw [hb2, ha2]
        subst hdval
        refine ⟨⟨fun hstat => by simp [BankTransactionProcessor.merge_out] at hstat,
          fun hle2 => absurd hle2 (not_le.mpr hlt)⟩,
          fun hstat => by simp [BankTransactionProcessor.merge_out] at hstat,
          fun _ => ⟨hlt, rfl⟩⟩

/-- Concrete cleaned bank row with amount 109,000 for client A社. -/
def bank_row_109 : ProcessedBankRow :=
  { Transaction_Date := ⟨2024, 6, 15⟩, Client_Name := "A社", Amount := 109000,
    Transaction_Type := "入金", processed_at := "2024-07-01 00:00:00",
    transaction_id := "TXN_0_A社", year := 2024, month := 6,
    amount_category := "medium" }

/-- Concrete cleaned bank row with amount 115,000 for client A社. -/
def bank_row_115 : ProcessedBankRow :=
  { Transaction_Date := ⟨2024, 6, 16⟩, Client_Name := "A社", Amount := 115000,
    Transaction_Type := "入金", processed_at := "2024-07-01 00:00:00",
    transaction_id := "TXN_1_A社", year := 2024, month := 6,
    amount_category := "medium" }

/-- Concrete receivables-ledger row: client A社 owes 100,000. -/
def ar_row_A : ARRow :=
  { Project_ID := "PRJ_0001", Client := "A社", AR_Amount := 100000 }

/-- Witness for C4 at the spec scenario: 109,000 against a 100,000
receivable (9 percent difference) is matched with confidence 0.91, and
115,000 (15 percent difference) is unmatched with confidence 0. -/
theorem c4_ar_tolerance_rule_witness :
    (bank_row_109 ∈ [bank_row_109, bank_row_115] ∧ ar_row_A ∈ [ar_row_A] ∧
      ar_row_A.Client = bank_row_109.Client_Name ∧ 0 < ar_row_A.AR_Amount ∧
      bank_row_115 ∈ [bank_row_109, bank_row_115] ∧
      ar_row_A.Client = bank_row_115.Client_Name) ∧
    rel_diff bank_row_109 ar_row_A = mkRat 9 100 ∧
    (BankTransactionProcessor.merge_out (bank_row_109, some ar_row_A) "matched"
        (1 - rel_diff bank_row_109 ar_row_A) ∈
      BankTransactionProcessor.match_with_accounts_receivable true [ar_row_A]
        [bank_row_109, bank_row_115]) ∧
    1 - rel_diff bank_row_109 ar_row_A = mkRat 91 100 ∧
    (BankTransactionProcessor.merge_out (bank_row_115, some ar_row_A) "unmatched" 0 ∈
      BankTransactionProcessor.match_with_accounts_receivable true [ar_row_A]
        [bank_row_109, bank_row_115]) :=
  ⟨⟨by decide, by decide, by decide, by decide, by decide, by decide⟩,
    by norm_num [rel_diff, bank_row_109, ar_row_A, abs_of_nonneg],
    (c4_ar_tolerance_rule [bank_row_109, bank_row_115] [ar_row_A] bank_row_109 ar_row_A
      (by decide) (by decide) (by decide) (by decide)).1
      (by norm_num [rel_diff, bank_row_109, ar_row_A, abs_of_nonneg]),
    by norm_num [rel_diff, bank_row_109, ar_row_A, abs_of_nonneg],
    (c4_ar_tolerance_rule [bank_row_109, bank_row_115] [ar_row_A] bank_row_115 ar_row_A
      (by decide) (by decide) (by decide) (by decide)).2.1
      (by norm_num [rel_diff, bank_row_115, ar_row_A, abs_of_nonneg])⟩

/-! Decimal-rendering machinery: a structural recursion equal to
`Nat.repr`, used to reason about the synthesized transaction ids. -/

def natChars (n : ℕ) : List Char :=
  if h : n < 10 then [Nat.digitChar n]
  else natChars (n / 10) ++ [Nat.digitChar (n % 10)]
termination_by n
decreasing_by exact Nat.div_lt_self (by omega) (by omega)

theorem toDigitsCore_eq_natChars :
    ∀ (fuel n : ℕ) (acc : List Char), n < fuel →
      Nat.toDigitsCore 10 fuel n acc = natChars n ++ acc := by
  intro fuel
  induction fuel with
  | zero =>
    intro n acc h
    exact absurd h (Nat.not_lt_zero n)
  | succ fuel ih =>
    intro n acc h
    by_cases h0 : n / 10 = 0
    · have hn : n < 10 := by
        by_contra hge
        have := Nat.div_lt_self (by omega) (show 1 < 10 by omega) (n := n)
        omega
      rw [show Nat.toDigitsCore 10 (fuel + 1) n acc = Nat.digitChar (n % 10) :: acc by
        rw [Nat.toDigitsCore]
        simp [h0]]
      rw [natChars, dif_pos hn, Nat.mod_eq_of_lt hn]
      rfl
    · have hn : ¬ n < 10 := by
        intro hlt
        exact h0 (Nat.div_eq_of_lt hlt)
      rw [show Nat.toDigitsCore 10 (fuel + 1) n acc =
          Nat.toDigitsCore 10 fuel (n / 10) (Nat.digitChar (n % 10) :: acc) by
        rw [Nat.toDigitsCore]
        simp [h0]]
      have hlt : n / 10 < fuel := by
        have h1 : n / 10 < n := Nat.div_lt_self (by omega) (by omega)
        omega
      rw [ih (n / 10) (Nat.digitChar (n % 10) :: acc) hlt]
      conv_rhs => rw [natChars]
      rw [dif_neg hn, List.append_assoc]
      rfl

theorem repr_data_eq_natChars (n : ℕ) : (Nat.repr n).data = natChars n := by
  show ((Nat.toDigits 10 n).asString).data = natChars n
  unfold Nat.toDigits
  rw [toDigitsCore_eq_natChars (n + 1) n [] (Nat.lt_succ_self n)]
  show (natChars n ++ []) = natChars n
  rw [List.append_nil]

theorem digitChar_isDigit {n : ℕ} (h : n < 10) : (Nat.digitChar n).isDigit = true := by
  interval_cases n <;> decide

theorem digitChar_sub48 {n : ℕ} (h : n < 10) : (Nat.digitChar n).toNat - 48 = n := by
  interval_cases n <;> decide

theorem natChars_digits : ∀ n : ℕ, ∀ c ∈ natChars n, c.isDigit = true := by
  intro n
  induction n using Nat.strong_induction_on with
  | _ n ih =>
    intro c hc
    rw [natChars] at hc
    by_cases h : n < 10
    · rw [dif_pos h] at hc
      rw [List.mem_singleton.mp hc]
      exact digitChar_isDigit h
    · rw [dif_neg h] at hc
      rcases List.mem_append.mp hc with h1 | h2
      · exact ih (n / 10) (Nat.div_lt_self (by omega) (by omega)) c h1
      · rw [List.mem_singleton.mp h2]
        exact digitChar_isDigit (Nat.mod_lt n (by omega))

theorem natChars_decode :
    ∀ n a : ℕ, List.foldl (fun acc c => 10 * acc + (c.toNat - 48)) a (natChars n) =
      a * 10 ^ (natChars n).length + n := by
  intro n
  induction n using Nat.strong_induction_on with
  | _ n ih =>
    intro a
    rw [natChars]
    by_cases h : n < 10
    · rw [dif_pos h]
      simp [List.foldl, digitChar_sub48 h]
      ring
    · rw [dif_neg h]
      rw [List.foldl_append]
      rw [ih (n / 10) (Nat.div_lt_self (by omega) (by omega)) a]
      have hm : (Nat.digitChar (n % 10)).toNat - 48 = n % 10 :=
        digitChar_sub48 (Nat.mod_lt n (by omega))
      simp only [List.foldl, hm, List.length_append, List.length_singleton]
      have hdm : 10 * (n / 10) + n % 10 = n := by
        have := Nat.div_add_mod n 10
        omega
      calc 10 * (a * 10 ^ (natChars (n / 10)).length + n / 10) + n % 10
          = a * 10 ^ ((natChars (n / 10)).length + 1) + (10 * (n / 10) + n % 10) := by ring
        _ = a * 10 ^ ((natChars (n / 10)).length + 1) + n := by rw [hdm]

theorem natChars_inj {m n : ℕ} (h : natChars m = natChars n) : m = n := by
  have h1 := natChars_decode m 0
  have h2 := natChars_decode n 0
  rw [h] at h1
  rw [h1] at h2
  omega

theorem digit_prefix_eq :
    ∀ (l1 l2 r1 r2 : List Char), (∀ c ∈ l1, c.isDigit = true) →
      (∀ c ∈ l2, c.isDigit = true) →
      l1 ++ '_' :: r1 = l2 ++ '_' :: r2 → l1 = l2 ∧ r1 = r2 := by
  intro l1
  induction l1 with
  | nil =>
    intro l2 r1 r2 _ h2 heq
    cases l2 with
    | nil => exact ⟨rfl, (List.cons.inj heq).2⟩
    | cons c t =>
      have hc : c = '_' := ((List.cons.inj heq).1).symm
      have hd := h2 c (List.mem_cons_self c t)
      rw [hc] at hd
      exact absurd hd (by decide)
  | cons c1 t1 ih =>
    intro l2 r1 r2 h1 h2 heq
    cases l2 with
    | nil =>
      have hc : c1 = '_' := (List.cons.inj heq).1
      have hd := h1 c1 (List.mem_cons_self c1 t1)
      rw [hc] at hd
      exact absurd hd (by decide)
    | cons c2 t2 =>
      obtain ⟨hc, ht⟩ := List.cons.inj heq
      obtain ⟨hteq, hreq⟩ := ih t2 r1 r2
        (fun c hcm => h1 c (List.mem_cons_of_mem c1 hcm))
        (fun c hcm => h2 c (List.mem_cons_of_mem c2 hcm)) ht
      exact ⟨by rw [hc, hteq], hreq⟩

theorem string_append_data (a b : String) : (a ++ b).data = a.data ++ b.data := rfl

theorem make_txn_id_inj_default {i j : ℕ} {ri rj : RawBankRow}
    (hi1 : ri.transaction_id = none) (hi2 : ri.project_id = none)
    (hj1 : rj.transaction_id = none) (hj2 : rj.project_id = none)
    (h : BankTransactionProcessor.make_txn_id i ri =
      BankTransactionProcessor.make_txn_id j rj) : i = j := by
  unfold BankTransactionProcessor.make_txn_id at h
  rw [hi1, hi2, hj1, hj2] at h
  have hd := congrArg String.data h
  simp only [string_append_data, List.append_assoc] at hd
  have hd2 := List.append_cancel_left hd
  have hd3 : (Nat.repr i).data ++ '_' :: (ri.Client_Name.getD "").data =
      (Nat.repr j).data ++ '_' :: (rj.Client_Name.getD "").data := by
    simpa using hd2
  have := digit_prefix_eq _ _ _ _
    (by rw [repr_data_eq_natChars]; exact natChars_digits i)
    (by rw [repr_data_eq_natChars]; exact natChars_digits j) hd3
  apply natChars_inj
  rw [← repr_data_eq_natChars, ← repr_data_eq_natChars]
  exact this.1

namespace BankTransactionProcessor

theorem clean_ids_none {df : List RawBankRow}
    (hnone : ∀ r ∈ df, r.transaction_id = none ∧ r.project_id = none) :
    ∀ p ∈ clean_transaction_data df,
      p.2.transaction_id = none ∧ p.2.project_id = none := by
  intro p hp
  unfold clean_transaction_data at hp
  have h1 := (List.mem_filter.mp hp).1
  have h2 := (List.mem_filter.mp h1).1
  have h3 := (List.mem_filter.mp h2).1
  rcases List.mem_map.mp h3 with ⟨q, hq, rfl⟩
  rcases q with ⟨i, x⟩
  obtain ⟨hi, hx⟩ := List.mem_enum hq
  have hxmem : x ∈ df := by
    rw [hx]
    exact List.getElem_mem hi
  exact hnone x hxmem

theorem clean_fst_nodup (df : List RawBankRow) :
    ((clean_transaction_data df).map Prod.fst).Nodup := by
  unfold clean_transaction_data
  apply List.Nodup.sublist
  · exact List.Sublist.map Prod.fst
      (((List.filter_sublist _).trans (List.filter_sublist _)).trans (List.filter_sublist _))
  · rw [List.map_map]
    have hfun : (Prod.fst ∘ fun (p : ℕ × RawBankRow) =>
        (p.1, { p.2 with
                  Transaction_Type := p.2.Transaction_Type.map strip,
                  Client_Name := p.2.Client_Name.map strip })) = Prod.fst :=
      funext fun p => rfl
    rw [hfun, List.enum_map_fst]
    exact List.nodup_range df.length

end BankTransactionProcessor

/-- C6, amended: for a raw bank file without `transaction_id` /
`project_id` columns (every cell of those columns null), the ids
synthesized by `add_processing_metadata` — `TXN_<row-position>_<client>`
— are pairwise distinct across the cleaned batch, because distinct row
positions render to distinct digit strings followed by the non-digit
separator.  Distinctness does not extend through the receivables-ledger
merge (see the counterexample). -/
theorem c6_txn_id_uniqueness (df : List RawBankRow) (now : String)
    (hnone : ∀ r ∈ df, r.transaction_id = none ∧ r.project_id = none) :
    ((BankTransactionProcessor.add_processing_metadata now
        (BankTransactionProcessor.clean_transaction_data df)).map
      ProcessedBankRow.transaction_id).Nodup := by
  unfold BankTransactionProcessor.add_processing_metadata
  rw [List.map_map]
  apply List.Nodup.map_on
  · intro x hx y hy hxy
    have hx2 := BankTransactionProcessor.clean_ids_none hnone x hx
    have hy2 := BankTransactionProcessor.clean_ids_none hnone y hy
    have hij : x.1 = y.1 := make_txn_id_inj_default hx2.1 hx2.2 hy2.1 hy2.2 hxy
    exact List.inj_on_of_nodup_map (BankTransactionProcessor.clean_fst_nodup df) hx hy hij
  · exact List.Nodup.of_map Prod.fst (BankTransactionProcessor.clean_fst_nodup df)

/-- Witness for C6 (amended form) at a concrete two-row raw batch
without raw id columns. -/
theorem c6_txn_id_uniqueness_witness :
    (∀ r ∈ [({ Transaction_Date := some ⟨2024, 6, 15⟩, Client_Name := some "A社",
               Amount := some 100000, Transaction_Type := some "入金",
               transaction_id := none, project_id := none } : RawBankRow),
             { Transaction_Date := some ⟨2024, 6, 16⟩, Client_Name := some "B社",
               Amount := some 200000, Transaction_Type := some "入金",
               transaction_id := none, project_id := none }],
      r.transaction_id = none ∧ r.project_id = none) ∧
    ((BankTransactionProcessor.add_processing_metadata "2024-07-01 00:00:00"
        (BankTransactionProcessor.clean_transaction_data
          [{ Transaction_Date := some ⟨2024, 6, 15⟩, Client_Name := some "A社",
             Amount := some 100000, Transaction_Type := some "入金",
             transaction_id := none, project_id := none },
           { Transaction_Date := some ⟨2024, 6, 16⟩, Client_Name := some "B社",
             Amount := some 200000, Transaction_Type := some "入金",
             transaction_id := none, project_id := none }])).map
      ProcessedBankRow.transaction_id).Nodup :=
  ⟨by decide,
    c6_txn_id_uniqueness _ "2024-07-01 00:00:00" (by decide)⟩

/-- Counterexample for C6 as stated: one cleaned bank row for client
A社 and a ledger holding two rows for A社; the left merge fans the bank
row out into two output rows that carry the same synthesized
`transaction_id`, so the ids of the batch output are not pairwise
distinct. -/
theorem c6_counterexample :
    ((BankTransactionProcessor.process
        [{ Transaction_Date := some ⟨2024, 6, 15⟩, Client_Name := some "A社",
           Amount := some 100000, Transaction_Type := some "入金",
           transaction_id := none, project_id := none }]
        true
        [{ Project_ID := "PRJ_0001", Client := "A社", AR_Amount := 100000 },
         { Project_ID := "PRJ_0002", Client := "A社", AR_Amount := 100000 }]
        "2024-07-01 00:00:00").map fun r => r.row.transaction_id) =
      ["TXN_0_A社", "TXN_0_A社"] ∧
    ¬ ((BankTransactionProcessor.process
        [{ Transaction_Date := some ⟨2024, 6, 15⟩, Client_Name := some "A社",
           Amount := some 100000, Transaction_Type := some "入金",
           transaction_id := none, project_id := none }]
        true
        [{ Project_ID := "PRJ_0001", Client := "A社", AR_Amount := 100000 },
         { Project_ID := "PRJ_0002", Client := "A社", AR_Amount := 100000 }]
        "2024-07-01 00:00:00").map fun r => r.row.transaction_id).Nodup := by
  constructor <;> with_unfolding_all decide

/-- Erasure of the `processed_at` timestamp on a processed row, used to
state run-to-run idempotence. -/
def eraseProcessedAt (r : ProcessedBankRow) : ProcessedBankRow :=
  { r with processed_at := "" }

/-- Erasure of the `processed_at` timestamp on a merged output row. -/
def eraseProcessedAtOut (r : MatchedBankRow) : MatchedBankRow :=
  { r with row := eraseProcessedAt r.row }

namespace BankTransactionProcessor

theorem add_meta_erase (t : String) (l : List (ℕ × RawBankRow)) :
    (add_processing_metadata t l).map eraseProcessedAt = add_processing_metadata "" l := by
  unfold add_processing_metadata
  rw [List.map_map]
  rfl

theorem left_merge_erase (l : List ProcessedBankRow) (ar : List ARRow) :
    left_merge_ar (l.map eraseProcessedAt) ar =
      (left_merge_ar l ar).map fun p => (eraseProcessedAt p.1, p.2) := by
  induction l with
  | nil => rfl
  | cons b t ih =>
    show (let hits := ar.filter fun a => a.Client == (eraseProcessedAt b).Client_Name;
      if hits.isEmpty then [(eraseProcessedAt b, none)]
      else hits.map fun a => (eraseProcessedAt b, some a)) ++
        left_merge_ar (t.map eraseProcessedAt) ar = _
    rw [ih]
    show _ = List.map (fun p => (eraseProcessedAt p.1, p.2))
      ((let hits := ar.filter fun a => a.Client == b.Client_Name;
        if hits.isEmpty then [(b, none)] else hits.map fun a => (b, some a)) ++
          left_merge_ar t ar)
    rw [List.map_append]
    rw [show (eraseProcessedAt b).Client_Name = b.Client_Name from rfl]
    congr 1
    by_cases hE : (List.filter (fun a => a.Client == b.Client_Name) ar).isEmpty
    · simp only [hE, if_true]
      rfl
    · simp only [hE, Bool.false_eq_true, if_false, List.map_map]
      rfl

theorem match_ar_true_eq (ar : List ARRow) (l : List ProcessedBankRow) :
    match_with_accounts_receivable true ar l =
      ((left_merge_ar l ar).filter fun p => match amount_diff_pct p.1 p.2 with
          | some d => decide (d ≤ mkRat 1 10)
          | none => false).map
        (fun p => merge_out p "matched" (1 - (amount_diff_pct p.1 p.2).getD 0)) ++
      ((left_merge_ar l ar).filter fun p => match amount_diff_pct p.1 p.2 with
          | some d => decide (mkRat 1 10 < d)
          | none => false).map (fun p => merge_out p "unmatched" 0) := rfl

theorem filter_map_erase_piece (q : ProcessedBankRow × Option ARRow → Bool)
    (hq : ∀ p, q (eraseProcessedAt p.1, p.2) = q p)
    (st : String) (cf : ProcessedBankRow × Option ARRow → ℚ)
    (hcf : ∀ p, cf (eraseProcessedAt p.1, p.2) = cf p)
    (l : List ProcessedBankRow) (ar : List ARRow) :
    ((left_merge_ar (l.map eraseProcessedAt) ar).filter q).map
      (fun p => merge_out p st (cf p)) =
    (((left_merge_ar l ar).filter q).map
      (fun p => merge_out p st (cf p))).map eraseProcessedAtOut := by
  rw [left_merge_erase, list_map_filter, List.map_map, List.map_map]
  rw [List.filter_congr
    (fun p _ => (hq p : q (eraseProcessedAt p.1, p.2) = q p))]
  apply List.map_congr_left
  intro p _
  show merge_out (eraseProcessedAt p.1, p.2) st (cf (eraseProcessedAt p.1, p.2)) =
    eraseProcessedAtOut (merge_out p st (cf p))
  rw [hcf p]
  rfl

theorem match_ar_erase (ex : Bool) (ar : List ARRow) (l : List ProcessedBankRow) :
    (match_with_accounts_receivable ex ar l).map eraseProcessedAtOut =
      match_with_accounts_receivable ex ar (l.map eraseProcessedAt) := by
  cases ex with
  | false =>
    show (l.map _).map eraseProcessedAtOut = (l.map eraseProcessedAt).map _
    rw [List.map_map, List.map_map]
    rfl
  | true =>
    rw [match_ar_true_eq, match_ar_true_eq, List.map_append]
    congr 1
    · refine (filter_map_erase_piece _ ?_ "matched" _ ?_ l ar).symm
      · exact fun p => rfl
      · exact fun p => rfl
    · refine (filter_map_erase_piece _ ?_ "unmatched" _ ?_ l ar).symm
      · exact fun p => rfl
      · exact fun p => rfl

end BankTransactionProcessor

/-- C8: running the Bank Transaction Preprocessor twice on the same
input file content and the same receivables-ledger content (at
timestamps t1 and t2) produces outputs that agree row by row on every
field except the `processed_at` timestamp. -/
theorem c8_idempotence (df : List RawBankRow) (ar_file_exists : Bool) (ar : List ARRow)
    (t1 t2 : String) :
    (BankTransactionProcessor.process df ar_file_exists ar t1).map eraseProcessedAtOut =
      (BankTransactionProcessor.process df ar_file_exists ar t2).map eraseProcessedAtOut := by
  unfold BankTransactionProcessor.process
  rw [BankTransactionProcessor.match_ar_erase, BankTransactionProcessor.add_meta_erase,
    BankTransactionProcessor.match_ar_erase, BankTransactionProcessor.add_meta_erase]

/-! Validators (`bank_data_validator.py`, `matching_validator.py`).
File existence / readability are modelled as satisfied (the validators
receive typed, loaded tables); the `errors` / `warnings` lists collect
the messages in execution order.  Message strings keep the fixed prefix
of the source f-strings; interpolated row data beyond the transaction id
is elided. -/

/-- First-occurrence de-duplication, modelling `pandas.Series.unique`
iteration order. -/
def unique (l : List String) : List String :=
  l.foldl (fun acc s => if acc.contains s then acc else acc ++ [s]) []

/-- Outlier test of `utils.data_utils.detect_outliers` (mean ± k·std
with the pandas sample standard deviation), expressed over rationals by
squaring both sides of `|x - mean| > k·std`; for fewer than two rows the
standard deviation is NaN and nothing is an outlier. -/
def detect_outliers_sq (amounts : List ℚ) (x : ℚ) (k : ℚ) : Bool :=
  if amounts.length ≤ 1 then false
  else
    let n : ℚ := amounts.length
    let mean := amounts.sum / n
    let variance := ((amounts.map fun a => (a - mean) ^ 2).sum) / (n - 1)
    decide (k ^ 2 * variance < (x - mean) ^ 2)

/-- Strict lexicographic comparison of character lists, modelling the
chronological comparison of ISO-formatted timestamp strings. -/
def chars_lt : List Char → List Char → Bool
  | [], [] => false
  | [], _ :: _ => true
  | _ :: _, [] => false
  | a :: as, b :: bs =>
    if a.toNat < b.toNat then true
    else if b.toNat < a.toNat then false
    else chars_lt as bs

namespace BankDataValidator

/-- The `^TXN_\d{8}_\d{4}$` format check of `validate_data_types`
(`self.df['transaction_id'].str.match(...)`). -/
def txn_id_format_ok (s : String) : Bool :=
  match s.data with
  | 'T' :: 'X' :: 'N' :: '_' :: rest =>
    let d8 := rest.take 8
    let rest2 := rest.drop 8
    decide (d8.length = 8) && d8.all Char.isDigit &&
      (match rest2 with
        | '_' :: d4 => decide (d4.length = 4) && d4.all Char.isDigit
        | _ => false)
  | _ => false

/-- Type / range validation (`BankDataValidator.validate_data_types`):
positive amounts, 入金-only transaction types, transaction-id format,
year / month bounds, confidence in [0,1].  Returns the flag and the
errors recorded. -/
def validate_data_types (df : List MatchedBankRow) : Bool × List String :=
  let errors :=
    (if df.all fun r => decide (0 < r.row.Amount) then []
     else ["Amount must be positive"]) ++
    (if df.all fun r => r.row.Transaction_Type == "入金" then []
     else ["All transactions must be '入金' type"]) ++
    (if df.all fun r => txn_id_format_ok r.row.transaction_id then []
     else ["transaction_id format invalid (should be TXN_YYYYMMDD_XXXX)"]) ++
    (if df.all fun r => decide (YEAR_MIN ≤ r.row.year ∧ r.row.year ≤ YEAR_MAX) then []
     else ["year out of valid range"]) ++
    (if df.all fun r => decide (MONTH_MIN ≤ r.row.month ∧ r.row.month ≤ MONTH_MAX) then []
     else ["month out of valid range"]) ++
    (if df.all fun r =>
        decide (MATCH_SCORE_MIN ≤ r.matching_confidence ∧
          r.matching_confidence ≤ MATCH_SCORE_MAX) then []
     else ["matching_confidence out of valid range"])
  (errors.isEmpty, errors)

/-- Warn-only range validation (`validate_data_ranges`): amount
outliers, low-confidence matched rows, future-dated transactions. -/
def validate_data_ranges (df : List MatchedBankRow) (today : Date) : Bool × List String :=
  let warnings :=
    ((df.filter fun r =>
        detect_outliers_sq (df.map fun x => x.row.Amount) r.row.Amount OUTLIER_STDDEV).map
      fun r => "Outlier amount: " ++ r.row.transaction_id) ++
    ((df.filter fun r => r.matching_status == "matched" &&
        decide (r.matching_confidence < CONFIDENCE_THRESHOLD_DEFAULT)).map
      fun r => "Low confidence match: " ++ r.row.transaction_id) ++
    (if (df.filter fun r =>
          decide (today.year < r.row.Transaction_Date.year) ||
          (decide (today.year = r.row.Transaction_Date.year) &&
            (decide (today.month < r.row.Transaction_Date.month) ||
              (decide (today.month = r.row.Transaction_Date.month) &&
                decide (today.day < r.row.Transaction_Date.day))))).isEmpty then []
     else ["Future transaction dates found"])
  (warnings.isEmpty, warnings)

/-- Duplicate validation (`validate_duplicates`): duplicated
transaction ids are an error; duplicated (date, client, amount) rows a
warning. -/
def validate_duplicates (df : List MatchedBankRow) : Bool × List String × List String :=
  let dup_ids := df.filter fun r =>
    1 < df.countP fun x => x.row.transaction_id == r.row.transaction_id
  if ! dup_ids.isEmpty then (false, ["Duplicate transaction_ids found"], [])
  else
    let dup_rows := df.filter fun r =>
      1 < df.countP fun x => x.row.Transaction_Date == r.row.Transaction_Date &&
        x.row.Client_Name == r.row.Client_Name && decide (x.row.Amount = r.row.Amount)
    (true, [], if dup_rows.isEmpty then [] else ["Potential duplicate transactions found"])

/-- Matching-consistency validation (`validate_matching_consistency`):
unknown `matching_status` values are an error; matched rows with zero
confidence and unmatched rows with confidence above 0.5 are warnings. -/
def validate_matching_consistency (df : List MatchedBankRow) :
    Bool × List String × List String :=
  let invalid := df.filter fun r =>
    ! (["matched", "unmatched", "matching_error", "no_ar_data"].contains r.matching_status)
  let errors := if invalid.isEmpty then [] else ["Invalid matching_status values"]
  let w1 := if (df.filter fun r => r.matching_status == "matched" &&
      decide (r.matching_confidence = 0)).isEmpty then []
    else ["Matched transactions with zero confidence"]
  let w2 := if (df.filter fun r => r.matching_status == "unmatched" &&
      decide (mkRat 1 2 < r.matching_confidence)).isEmpty then []
    else ["Unmatched transactions with high confidence"]
  (errors.isEmpty, errors, w1 ++ w2)

/-- Warn-only amount validation (`validate_amount_consistency`): amount
variations within one transaction id, and amount-category boundary
checks (the small-category bound is the literal 100000 in the source). -/
def validate_amount_consistency (df : List MatchedBankRow) : Bool × List String :=
  let warnings :=
    (if ((unique (df.map fun r => r.row.transaction_id)).filter fun t =>
        1 < (((df.filter fun r => r.row.transaction_id == t).map
          fun r => r.row.Amount).dedup).length).isEmpty then []
     else ["Amount variations for same transaction_id"]) ++
    (if (df.filter fun r => r.row.amount_category == "small" &&
        decide ((100000 : ℚ) ≤ r.row.Amount)).isEmpty then []
     else ["Small category contains amounts >= 100,000 yen"]) ++
    (if (df.filter fun r => r.row.amount_category == "medium" &&
        (decide (r.row.Amount < AMOUNT_SMALL_MAX) ||
          decide (AMOUNT_MEDIUM_MAX ≤ r.row.Amount))).isEmpty then []
     else ["Medium category contains amounts outside range"]) ++
    (if (df.filter fun r => r.row.amount_category == "large" &&
        decide (r.row.Amount < AMOUNT_MEDIUM_MAX)).isEmpty then []
     else ["Large category contains amounts < 500,000 yen"])
  (warnings.isEmpty, warnings)

/-- Warn-only date validation (`validate_date_consistency`): year /
month columns must agree with the transaction date.  The two
processed-timestamp ordering warnings of the source (future
`processed_at`, transaction date after processing date), which require
parsing the timestamp string, are elided; they are warn-only and do not
feed the verdict. -/
def validate_date_consistency (df : List MatchedBankRow) : Bool × List String :=
  let warnings :=
    if (df.filter fun r => ! (decide (r.row.year = r.row.Transaction_Date.year) &&
        decide (r.row.month = r.row.Transaction_Date.month))).isEmpty then []
    else ["Date inconsistency found"]
  (warnings.isEmpty, warnings)

/-- Per-run validation state, mirroring `validation_results`. -/
structure BVResults where
  file_exists : Bool
  file_readable : Bool
  required_columns : Bool
  data_types : Bool
  data_ranges : Bool
  duplicates : Bool
  matching_consistency : Bool
  amount_consistency : Bool
  date_consistency : Bool
  errors : List String
  warnings : List String
deriving Repr

/-- The full run (`BankDataValidator.run_all_validations`) on a loaded
table: every stage executes in order and records its flag, errors and
warnings. -/
def run_all_validations (df : List MatchedBankRow) (today : Date) : BVResults :=
  let dt := validate_data_types df
  let dr := validate_data_ranges df today
  let dup := validate_duplicates df
  let mc := validate_matching_consistency df
  let ac := validate_amount_consistency df
  let dc := validate_date_consistency df
  { file_exists := true
    file_readable := true
    required_columns := true
    data_types := dt.1
    data_ranges := dr.1
    duplicates := dup.1
    matching_consistency := mc.1
    amount_consistency := ac.1
    date_consistency := dc.1
    errors := dt.2 ++ dup.2.1 ++ mc.2.1
    warnings := dr.2 ++ dup.2.2 ++ mc.2.2 ++ ac.2 ++ dc.2 }

/-- The final verdict computed at the end of `run_all_validations`
(lines 399-406): only file checks, required columns, data types,
duplicates and matching consistency enter the conjunction. -/
def is_valid (r : BVResults) : Bool :=
  r.file_exists && r.file_readable && r.required_columns &&
    r.data_types && r.duplicates && r.matching_consistency

end BankDataValidator

namespace MatchingValidator

/-- Type validation (`MatchingValidator.validate_data_types`): positive
amounts in both tables, scores in range in both tables, and only the
three known entry types.  (The date-parse checks are satisfied for
typed rows.) -/
def validate_data_types (journal : List JournalEntry) (match_df : List MatchSuggestion) :
    Bool × List String :=
  let errors :=
    (if journal.all fun e => decide (0 < e.amount) then []
     else ["Journal amount must be positive"]) ++
    (if match_df.all fun m => decide (0 < m.amount) then []
     else ["Match suggestion amount must be positive"]) ++
    (if journal.all fun e =>
        decide (MATCH_SCORE_MIN ≤ e.match_score ∧ e.match_score ≤ MATCH_SCORE_MAX) then []
     else ["Match score out of valid range"]) ++
    (if match_df.all fun m =>
        decide (MATCH_SCORE_MIN ≤ m.match_score ∧ m.match_score ≤ MATCH_SCORE_MAX) then []
     else ["Match suggestion score out of valid range"]) ++
    (if (journal.filter fun e =>
        ! (["cash_receipt", "revenue_recognition", "manual_review"].contains
          e.entry_type)).isEmpty then []
     else ["Invalid entry types"])
  (errors.isEmpty, errors)

/-- Accounting-balance validation (`validate_accounting_balance`): a
global cash-debit / revenue-credit mismatch beyond 1 unit is an error
and returns early; otherwise the per-transaction pair-count and
amount-mismatch checks record warnings, and the `accounting_balance`
flag is set only when no warning was recorded. -/
def validate_accounting_balance (journal : List JournalEntry) :
    Bool × List String × List String :=
  let debit_total := ((journal.filter fun e => e.debit_account == "現金").map
    JournalEntry.amount).sum
  let credit_total := ((journal.filter fun e => e.credit_account == "売上").map
    JournalEntry.amount).sum
  if decide (1 < |debit_total - credit_total|) then
    (false, ["Accounting balance mismatch"], [])
  else
    let warnings := (unique (journal.map JournalEntry.transaction_id)).flatMap fun t =>
      let txn_entries := journal.filter fun e => e.transaction_id == t
      let cash := txn_entries.filter fun e => e.entry_type == "cash_receipt"
      let revenue := txn_entries.filter fun e => e.entry_type == "revenue_recognition"
      (if cash.length == revenue.length then []
       else ["Unbalanced entries for " ++ t]) ++
      (if decide (AMOUNT_TOLERANCE <
          |(cash.map JournalEntry.amount).sum - (revenue.map JournalEntry.amount).sum|)
       then ["Inconsistent amounts for " ++ t] else [])
    (warnings.isEmpty, [], warnings)

/-- Matching-consistency validation (`validate_matching_consistency`):
cross-source orphan transaction ids are warnings; for each common
transaction id, the journal's cash-receipt total is compared to the
first matching suggestion's `matched_amount` (error beyond 1 unit), and
the scores are compared within 0.001 (warning). -/
def validate_matching_consistency (journal : List JournalEntry)
    (match_df : List MatchSuggestion) : Bool × List String × List String :=
  let jt := unique (journal.map JournalEntry.transaction_id)
  let mt := unique (match_df.map MatchSuggestion.transaction_id)
  let w_missing_match :=
    if (jt.filter fun t => ! mt.contains t).isEmpty then []
    else ["Transactions in journal but not in match suggestions"]
  let w_missing_journal :=
    if (mt.filter fun t => ! jt.contains t).isEmpty then []
    else ["Transactions in match suggestions but not in journal"]
  let common := jt.filter fun t => mt.contains t
  let errors := common.flatMap fun t =>
    let journal_amount := (((journal.filter fun e => e.transaction_id == t).filter
      fun e => e.entry_type == "cash_receipt").map JournalEntry.amount).sum
    match match_df.find? fun m => m.transaction_id == t with
    | some m =>
      if decide (1 < |journal_amount - m.matched_amount|) then
        ["Amount mismatch for " ++ t]
      else []
    | none => []
  let score_warnings := common.flatMap fun t =>
    match journal.find? fun e => e.transaction_id == t,
        match_df.find? fun m => m.transaction_id == t with
    | some e, some m =>
      if decide (mkRat 1 1000 < |e.match_score - m.match_score|) then
        ["Score mismatch for " ++ t]
      else []
    | _, _ => []
  (errors.isEmpty, errors, w_missing_match ++ w_missing_journal ++ score_warnings)

/-- Warn-only amount validation (`validate_amount_consistency`):
per-transaction cash / revenue totals within tolerance, and amount
outliers beyond mean ± 3·std. -/
def validate_amount_consistency (journal : List JournalEntry) : Bool × List String :=
  let warnings :=
    ((unique (journal.map JournalEntry.transaction_id)).flatMap fun t =>
      let txn_entries := journal.filter fun e => e.transaction_id == t
      let cash := (txn_entries.filter fun e => e.entry_type == "cash_receipt").map
        JournalEntry.amount
      let revenue := (txn_entries.filter fun e => e.entry_type == "revenue_recognition").map
        JournalEntry.amount
      if decide (AMOUNT_TOLERANCE < |cash.sum - revenue.sum|) then
        ["Inconsistent amounts for " ++ t]
      else []) ++
    ((journal.filter fun e =>
        detect_outliers_sq (journal.map JournalEntry.amount) e.amount OUTLIER_STDDEV).map
      fun e => "Outlier amount: " ++ e.transaction_id)
  (warnings.isEmpty, warnings)

/-- Duplicate validation (`validate_duplicate_entries`): a duplicated
(transaction id, entry type) pair is an error; a duplicated (date,
transaction id, amount) triple a warning. -/
def validate_duplicate_entries (journal : List JournalEntry) :
    Bool × List String × List String :=
  let dup := journal.filter fun e =>
    1 < journal.countP fun x =>
      x.transaction_id == e.transaction_id && x.entry_type == e.entry_type
  if ! dup.isEmpty then (false, ["Duplicate entries found"], [])
  else
    let pot := journal.filter fun e =>
      1 < journal.countP fun x =>
        x.date == e.date && x.transaction_id == e.transaction_id &&
          decide (x.amount = e.amount)
    (true, [], if pot.isEmpty then [] else ["Potential duplicate entries found"])

/-- Per-run validation state, mirroring `validation_results`. -/
structure MVResults where
  file_exists : Bool
  file_readable : Bool
  required_columns : Bool
  data_types : Bool
  accounting_balance : Bool
  matching_consistency : Bool
  amount_consistency : Bool
  duplicate_entries : Bool
  errors : List String
  warnings : List String
deriving Repr

/-- The full run (`MatchingValidator.run_all_validations`) on loaded
tables: every stage executes in order (the boolean results of the
individual calls are discarded, only the recorded flags matter). -/
def run_all_validations (journal : List JournalEntry) (match_df : List MatchSuggestion) :
    MVResults :=
  let dt := validate_data_types journal match_df
  let ab := validate_accounting_balance journal
  let mc := validate_matching_consistency journal match_df
  let ac := validate_amount_consistency journal
  let dup := validate_duplicate_entries journal
  { file_exists := true
    file_readable := true
    required_columns := true
    data_types := dt.1
    accounting_balance := ab.1
    matching_consistency := mc.1
    amount_consistency := ac.1
    duplicate_entries := dup.1
    errors := dt.2 ++ ab.2.1 ++ mc.2.1 ++ dup.2.1
    warnings := ab.2.2 ++ mc.2.2 ++ ac.2 ++ dup.2.2 }

/-- The final verdict computed at the end of `run_all_validations`
(lines 434-442): the conjunction includes the warn-gated
`accounting_balance` flag. -/
def is_valid (r : MVResults) : Bool :=
  r.file_exists && r.file_readable && r.required_columns && r.data_types &&
    r.accounting_balance && r.matching_consistency && r.duplicate_entries

end MatchingValidator

theorem branch_flag_false_of_warnings {c : Prop} [Decidable c] {errs w : List String}
    (hw : (if c then ((false, errs, []) : Bool × List String × List String)
      else (w.isEmpty, [], w)).2.2 ≠ []) :
    (if c then ((false, errs, []) : Bool × List String × List String)
      else (w.isEmpty, [], w)).1 = false := by
  by_cases h : c
  · rw [if_pos h] at hw
    exact absurd rfl hw
  · rw [if_neg h] at hw ⊢
    show w.isEmpty = false
    cases hemp : w.isEmpty
    · rfl
    · exact absurd (List.isEmpty_iff.mp hemp) hw

theorem accounting_balance_flag_false_of_warnings {journal : List JournalEntry}
    (hw : (MatchingValidator.validate_accounting_balance journal).2.2 ≠ []) :
    (MatchingValidator.validate_accounting_balance journal).1 = false := by
  simp only [MatchingValidator.validate_accounting_balance] at hw ⊢
  exact branch_flag_false_of_warnings hw

/-- C5, amended: in the Bank Data Validator the verdict is the
conjunction of the fail-closed flags only, so when file checks, required
columns, data types, duplicates and matching consistency pass the run is
valid no matter which warn-only findings (outliers, low-confidence
matches, future dates, category-boundary or date-consistency warnings)
were recorded.  In the Matching Validator, however, the verdict
conjunction includes the `accounting_balance` flag, which is cleared by
the warn-only per-transaction pair-count / amount-mismatch findings:
whenever `validate_accounting_balance` records any warning, the final
verdict is invalid even if every fail-closed check passes. -/
theorem c5_fail_closed_verdict :
    (∀ (df : List MatchedBankRow) (today : Date),
      (BankDataValidator.run_all_validations df today).data_types = true →
      (BankDataValidator.run_all_validations df today).duplicates = true →
      (BankDataValidator.run_all_validations df today).matching_consistency = true →
      BankDataValidator.is_valid (BankDataValidator.run_all_validations df today) = true) ∧
    (∀ (journal : List JournalEntry) (match_df : List MatchSuggestion),
      (MatchingValidator.validate_accounting_balance journal).2.2 ≠ [] →
      MatchingValidator.is_valid
        (MatchingValidator.run_all_validations journal match_df) = false) := by
  constructor
  · intro df today h1 h2 h3
    simp only [BankDataValidator.is_valid, h1, h2, h3]
    rfl
  · intro journal match_df hw
    have hab : (MatchingValidator.run_all_validations journal match_df).accounting_balance =
        false := accounting_balance_flag_false_of_warnings hw
    simp [MatchingValidator.is_valid, hab]

/-- Concrete journal whose per-transaction cash / revenue legs disagree
by 1000 while the global totals balance: two transactions with crossed
amounts 100000 / 99000. -/
def c5_journal : List JournalEntry :=
  [{ date := "2024-06-01", transaction_id := "TXN_20240601_0001", project_id := "PRJ_0001",
     client_name := "A社", debit_account := "現金", credit_account := "売掛金",
     amount := 100000, description := "入金消込", match_score := mkRat 9 10,
     entry_type := "cash_receipt", created_at := "2024-06-01 12:00:00" },
   { date := "2024-06-01", transaction_id := "TXN_20240601_0001", project_id := "PRJ_0001",
     client_name := "A社", debit_account := "売掛金", credit_account := "売上",
     amount := 99000, description := "売上計上", match_score := mkRat 9 10,
     entry_type := "revenue_recognition", created_at := "2024-06-01 12:00:00" },
   { date := "2024-06-01", transaction_id := "TXN_20240601_0002", project_id := "PRJ_0002",
     client_name := "B社", debit_account := "現金", credit_account := "売掛金",
     amount := 99000, description := "入金消込", match_score := mkRat 9 10,
     entry_type := "cash_receipt", created_at := "2024-06-01 12:00:00" },
   { date := "2024-06-01", transaction_id := "TXN_20240601_0002", project_id := "PRJ_0002",
     client_name := "B社", debit_account := "売掛金", credit_account := "売上",
     amount := 100000, description := "売上計上", match_score := mkRat 9 10,
     entry_type := "revenue_recognition", created_at := "2024-06-01 12:00:00" }]

/-- Match suggestions agreeing with the cash legs of `c5_journal`. -/
def c5_suggestions : List MatchSuggestion :=
  [{ transaction_id := "TXN_20240601_0001", project_id := "PRJ_0001", client_name := "A社",
     amount := 100000, matched_amount := 100000, match_score := mkRat 9 10 },
   { transaction_id := "TXN_20240601_0002", project_id := "PRJ_0002", client_name := "B社",
     amount := 99000, matched_amount := 99000, match_score := mkRat 9 10 }]

/-- Counterexample for C5 as stated: on `c5_journal` every fail-closed
check passes and no error is recorded, only per-transaction
amount-mismatch warnings — yet the Matching Validator verdict is
invalid, because those warn-only findings clear the
`accounting_balance` flag that the verdict conjunction includes. -/
theorem c5_counterexample :
    (MatchingValidator.run_all_validations c5_journal c5_suggestions).data_types = true ∧
    (MatchingValidator.run_all_validations c5_journal
      c5_suggestions).matching_consistency = true ∧
    (MatchingValidator.run_all_validations c5_journal
      c5_suggestions).duplicate_entries = true ∧
    (MatchingValidator.run_all_validations c5_journal c5_suggestions).errors = [] ∧
    (MatchingValidator.validate_accounting_balance c5_journal).2.2 ≠ [] ∧
    MatchingValidator.is_valid
      (MatchingValidator.run_all_validations c5_journal c5_suggestions) = false := by
  refine ⟨?_, ?_, ?_, ?_, ?_, ?_⟩ <;> with_unfolding_all decide

/-- Concrete well-formed preprocessor output row whose transaction id
has the `TXN_YYYYMMDD_XXXX` shape. -/
def c5_bank_row : MatchedBankRow :=
  { row := { Transaction_Date := ⟨2024, 6, 15⟩, Client_Name := "A社", Amount := 109000,
             Transaction_Type := "入金", processed_at := "2024-07-01 00:00:00",
             transaction_id := "TXN_20240615_0001", year := 2024, month := 6,
             amount_category := "medium" }
    Project_ID := some "PRJ_0001"
    AR_Amount := some 100000
    amount_diff_pct := some (mkRat 9 100)
    matching_status := "matched"
    matching_confidence := mkRat 91 100 }

/-- Witness for C5 (amended form): the bank part at a concrete
well-formed row, the matching part at the crossed-amount journal. -/
theorem c5_fail_closed_verdict_witness :
    ((BankDataValidator.run_all_validations [c5_bank_row] ⟨2024, 7, 1⟩).data_types = true ∧
      (BankDataValidator.run_all_validations [c5_bank_row] ⟨2024, 7, 1⟩).duplicates = true ∧
      (BankDataValidator.run_all_validations [c5_bank_row]
        ⟨2024, 7, 1⟩).matching_consistency = true ∧
      (MatchingValidator.validate_accounting_balance c5_journal).2.2 ≠ []) ∧
    BankDataValidator.is_valid
      (BankDataValidator.run_all_validations [c5_bank_row] ⟨2024, 7, 1⟩) = true ∧
    MatchingValidator.is_valid
      (MatchingValidator.run_all_validations c5_journal c5_suggestions) = false :=
  ⟨⟨by decide, by decide, by decide, by with_unfolding_all decide⟩,
    c5_fail_closed_verdict.1 [c5_bank_row] ⟨2024, 7, 1⟩ (by decide) (by decide) (by decide),
    c5_fail_closed_verdict.2 c5_journal c5_suggestions (by with_unfolding_all decide)⟩

/-- C9: the preprocessor's own output can fail the Bank Data
Validator's transaction-id format check: a raw row without raw id /
project-id columns gets the synthesized id `TXN_0_A社`, which does not
match `^TXN_\d{8}_\d{4}$`, so validating the preprocessor output sets
`data_types` to false with the format error recorded. -/
theorem c9_txn_id_format_mismatch :
    ((BankTransactionProcessor.process
        [{ Transaction_Date := some ⟨2024, 6, 15⟩, Client_Name := some "A社",
           Amount := some 109000, Transaction_Type := some "入金",
           transaction_id := none, project_id := none }]
        true [{ Project_ID := "PRJ_0001", Client := "A社", AR_Amount := 100000 }]
        "2024-07-01 00:00:00").map fun r => r.row.transaction_id) = ["TXN_0_A社"] ∧
    BankDataValidator.txn_id_format_ok "TXN_0_A社" = false ∧
    (BankDataValidator.validate_data_types
      (BankTransactionProcessor.process
        [{ Transaction_Date := some ⟨2024, 6, 15⟩, Client_Name := some "A社",
           Amount := some 109000, Transaction_Type := some "入金",
           transaction_id := none, project_id := none }]
        true [{ Project_ID := "PRJ_0001", Client := "A社", AR_Amount := 100000 }]
        "2024-07-01 00:00:00")).1 = false ∧
    "transaction_id format invalid (should be TXN_YYYYMMDD_XXXX)" ∈
      (BankDataValidator.validate_data_types
        (BankTransactionProcessor.process
          [{ Transaction_Date := some ⟨2024, 6, 15⟩, Client_Name := some "A社",
             Amount := some 109000, Transaction_Type := some "入金",
             transaction_id := none, project_id := none }]
          true [{ Project_ID := "PRJ_0001", Client := "A社", AR_Amount := 100000 }]
          "2024-07-01 00:00:00")).2 := by
  refine ⟨?_, ?_, ?_, ?_⟩ <;> with_unfolding_all decide

/-- Concrete low-confidence suggestion set: one suggestion at score 0.5
with matched amount 200000. -/
def c10_suggestions : List MatchSuggestion :=
  [{ transaction_id := "TXN_P9_PRJ_0009", project_id := "PRJ_0009", client_name := "C社",
     amount := 200000, matched_amount := 200000, match_score := mkRat 1 2 }]

set_option maxRecDepth 10000 in
/-- C10: a validated suggestion set whose only row is below the 0.7
threshold journals as a single manual_review entry; the Matching
Validator then fails `validate_matching_consistency` with an
amount-mismatch error, because for the common transaction id it compares
`matched_amount` (200000) against the sum of the journal's cash_receipt
entries for that id, which is zero. -/
theorem c10_manual_review_consistency_error :
    CashMatchingProcessor.validate_match_suggestions c10_suggestions = true ∧
    CashMatchingProcessor.process c10_suggestions (mkRat 7 10)
        "2024-06-30" "2024-06-30 12:00:00" =
      some [CashMatchingProcessor.manual_review_entry "2024-06-30" "2024-06-30 12:00:00"
        { transaction_id := "TXN_P9_PRJ_0009", project_id := "PRJ_0009",
          client_name := "C社", amount := 200000, matched_amount := 200000,
          match_score := mkRat 1 2 }] ∧
    (MatchingValidator.validate_matching_consistency
      (CashMatchingProcessor.process_journal c10_suggestions (mkRat 7 10)
        "2024-06-30" "2024-06-30 12:00:00") c10_suggestions).1 = false ∧
    "Amount mismatch for TXN_P9_PRJ_0009" ∈
      (MatchingValidator.validate_matching_consistency
        (CashMatchingProcessor.process_journal c10_suggestions (mkRat 7 10)
          "2024-06-30" "2024-06-30 12:00:00") c10_suggestions).2.1 := by
  refine ⟨by decide, by decide, ?_, ?_⟩ <;> with_unfolding_all decide

/-! Match Suggestion Normalizer (`convert_match_suggestion.py`).  The
claims concern the validation and repair of the converted rows, so the
embedding starts from the converted row list (`csv_data` after
`convert_to_csv_format`). -/

structure CsvRow where
  transaction_id : String
  project_id : String
  client_name : String
  amount : ℚ
  matched_amount : ℚ
  match_score : ℚ
  comment : String
deriving DecidableEq, Repr

namespace MatchSuggestionConverter

/-- Basic validity (`MatchSuggestionConverter.validate_data`): an empty
batch fails; the per-field presence and non-null checks hold by typing
for converted rows. -/
def validate_data (csv_data : List CsvRow) : Bool :=
  ! csv_data.isEmpty

/-- Integrity validation (`validate_data_integrity`): the project-id,
client-name and amount findings are logged warnings that never fail the
check; a `match_score` outside [0,1] on any row fails the whole batch. -/
def validate_data_integrity (csv_data : List CsvRow) : Bool :=
  csv_data.all fun row => decide (0 ≤ row.match_score ∧ row.match_score ≤ 1)

/-- Repair pass (`handle_data_inconsistency`): every predicate reads
the original row and every substitution updates the corrected copy, in
source order — unknown client name, non-positive amount (fixed
placeholder 1000 on both amount fields), non-positive matched amount
(copied from the corrected amount), out-of-range score (midpoint 0.5),
and a transaction id that does not start with `TXN_`. -/
def handle_data_inconsistency (csv_data : List CsvRow) : List CsvRow :=
  csv_data.map fun row =>
    let r1 := if row.client_name == "Unknown" then
        { row with client_name := "Unknown_" ++ row.project_id }
      else row
    let r2 := if decide (row.amount ≤ 0) then
        { r1 with amount := 1000, matched_amount := 1000 }
      else r1
    let r3 := if decide (row.matched_amount ≤ 0) then
        { r2 with matched_amount := r2.amount }
      else r2
    let r4 := if decide (¬ (0 ≤ row.match_score ∧ row.match_score ≤ 1)) then
        { r3 with match_score := mkRat 1 2 }
      else r3
    if "TXN_".data.isPrefixOf row.transaction_id.data then r4
    else { r4 with transaction_id := "TXN_FIXED_" ++ row.project_id }

/-- The conversion flow `convert` from the converted rows on: hard
validation failures abort with no CSV written (`none`); otherwise the
repaired batch is saved. -/
def convert (csv_data : List CsvRow) : Option (List CsvRow) :=
  if ¬ validate_data csv_data then none
  else if ¬ validate_data_integrity csv_data then none
  else some (handle_data_inconsistency csv_data)

end MatchSuggestionConverter

/-- C7: a match-score outside [0,1] on any converted row is a hard
error for the whole batch — `convert` fails and writes no CSV, and no
score is auto-corrected at that stage; conversely, whenever `convert`
succeeds the repair pass has left every score unchanged (the midpoint
substitution can only ever apply to rows of batches that pass hard
validation, and those have no out-of-range score to substitute). -/
theorem c7_score_hard_error (csv_data : List CsvRow) :
    ((∃ row ∈ csv_data, ¬ (0 ≤ row.match_score ∧ row.match_score ≤ 1)) →
      MatchSuggestionConverter.convert csv_data = none) ∧
    (∀ out, MatchSuggestionConverter.convert csv_data = some out →
      out.map CsvRow.match_score = csv_data.map CsvRow.match_score) := by
  constructor
  · rintro ⟨row, hrow, hbad⟩
    unfold MatchSuggestionConverter.convert
    have hint : MatchSuggestionConverter.validate_data_integrity csv_data = false := by
      rw [MatchSuggestionConverter.validate_data_integrity]
      rw [List.all_eq_false]
      exact ⟨row, hrow, by simp [hbad]⟩
    by_cases hv : MatchSuggestionConverter.validate_data csv_data
    · rw [if_neg (by simp [hv]), if_pos (by simp [hint])]
    · rw [if_pos (by simpa using hv)]
  · intro out hout
    unfold MatchSuggestionConverter.convert at hout
    by_cases hv : MatchSuggestionConverter.validate_data csv_data
    · rw [if_neg (by simp [hv])] at hout
      by_cases hint : MatchSuggestionConverter.validate_data_integrity csv_data
      · rw [if_neg (by simp [hint])] at hout
        have hout2 := Option.some.inj hout
        rw [← hout2]
        unfold MatchSuggestionConverter.handle_data_inconsistency
        rw [List.map_map]
        apply List.map_congr_left
        intro row hrow
        have hscore : (0 ≤ row.match_score ∧ row.match_score ≤ 1) := by
          have := (List.all_eq_true.mp hint) row hrow
          simpa using this
        simp only [Function.comp]
        split_ifs <;>
          first
            | rfl
            | exact absurd hscore (of_decide_eq_true (by assumption))
      · rw [if_pos (by simp [hint])] at hout
        cases hout
    · rw [if_pos (by simpa using hv)] at hout
      cases hout

/-- Witness for C7: a one-row batch with score 1.5 aborts the
conversion, and a one-row batch with score 0.9 converts with the score
untouched. -/
theorem c7_score_hard_error_witness :
    ((∃ row ∈ [({ transaction_id := "TXN_P1_PRJ_0001", project_id := "PRJ_0001",
                  client_name := "A社", amount := 100000, matched_amount := 100000,
                  match_score := mkRat 3 2, comment := "ai match" } : CsvRow)],
        ¬ (0 ≤ row.match_score ∧ row.match_score ≤ 1)) ∧
      MatchSuggestionConverter.convert
        [({ transaction_id := "TXN_P1_PRJ_0001", project_id := "PRJ_0001",
            client_name := "A社", amount := 100000, matched_amount := 100000,
            match_score := mkRat 3 2, comment := "ai match" } : CsvRow)] = none) ∧
    (MatchSuggestionConverter.convert
        [({ transaction_id := "TXN_P1_PRJ_0001", project_id := "PRJ_0001",
            client_name := "A社", amount := 100000, matched_amount := 100000,
            match_score := mkRat 9 10, comment := "ai match" } : CsvRow)] =
      some [({ transaction_id := "TXN_P1_PRJ_0001", project_id := "PRJ_0001",
               client_name := "A社", amount := 100000, matched_amount := 100000,
               match_score := mkRat 9 10, comment := "ai match" } : CsvRow)] ∧
      ([({ transaction_id := "TXN_P1_PRJ_0001", project_id := "PRJ_0001",
           client_name := "A社", amount := 100000, matched_amount := 100000,
           match_score := mkRat 9 10, comment := "ai match" } : CsvRow)].map
        CsvRow.match_score) = [mkRat 9 10]) :=
  ⟨⟨by decide,
    (c7_score_hard_error _).1 (by decide)⟩,
    by decide, by decide⟩
